import Mathlib

set_option maxHeartbeats 1000000

/-!
Verification development for the Northwind ETL pipeline
(`etl_orders.py`, `etl_category.py`, `etl_product.py`).

The pandas data frames are embedded shallowly: a frame is an ordered list of
column names together with rows represented as association lists from column
name to cell value.  Numeric cells are rationals, `Val.null` plays the role of
NaN / SQL NULL.  Database side effects (connections, issued SQL statements,
transactions) are made explicit as traces and state-transformer results, with
an oracle argument selecting which external operation fails, mirroring the
`try/except pyodbc.Error` structure of the source.
-/

namespace NW

/-- A cell value: NaN/NULL, a (rational) number, or a string (dates etc.). -/
inductive Val where
  | null : Val
  | num : ℚ → Val
  | str : String → Val
  deriving DecidableEq

/-- A data-frame row: an association list from column name to cell value. -/
abbrev Row := List (String × Val)

/-- Reading a cell by column name; a missing entry reads as NaN (pandas fills
unmatched merge columns with NaN, and we only read declared columns). -/
def rget (r : Row) (c : String) : Val :=
  match r.lookup c with
  | some v => v
  | none => Val.null

/-- Remove the entry for column `c` from a row (`DataFrame.drop` per row). -/
def rowDrop (r : Row) (c : String) : Row :=
  r.filter (fun p => p.1 ≠ c)

/-- Write a cell: the new binding shadows and replaces any previous one. -/
def rset (r : Row) (c : String) (v : Val) : Row :=
  (c, v) :: rowDrop r c

/-- Apply a column-rename table to one key, `DataFrame.rename` style:
keys not in the table are unchanged. -/
def rnF (tb : List (String × String)) (k : String) : String :=
  match tb.lookup k with
  | some t => t
  | none => k

/-- Rename the keys of a row according to a rename table. -/
def renameKeys (tb : List (String × String)) (r : Row) : Row :=
  r.map (fun p => (rnF tb p.1, p.2))

/-- A pandas `DataFrame`: ordered column labels plus rows. -/
structure DFrame where
  cols : List String
  rows : List Row
  deriving DecidableEq

/-- `pd.DataFrame()`: the empty frame returned on the swallowed error paths. -/
def emptyDF : DFrame := ⟨[], []⟩

/-- `df.empty`: true when the frame has no cells (either axis empty). -/
def DFrame.isEmptyDF (df : DFrame) : Bool :=
  df.rows.isEmpty || df.cols.isEmpty

/-- Rows are well formed for their frame: every entry's key is a declared
column of the frame. -/
def DFrame.WF (df : DFrame) : Prop :=
  ∀ r ∈ df.rows, ∀ p ∈ r, p.1 ∈ df.cols

instance (df : DFrame) : Decidable df.WF := by
  unfold DFrame.WF; infer_instance

/-- `df[c]` as a full column (raises `KeyError`, i.e. `none`, when absent). -/
def getCol (df : DFrame) (c : String) : Option (List Val) :=
  if c ∈ df.cols then some (df.rows.map (fun r => rget r c)) else none

/-- `df[c] = f(df)`: assign a row-aligned derived series to column `c`;
a new column label is appended at the end, an existing one is overwritten. -/
def setColWith (df : DFrame) (c : String) (f : Row → Val) : DFrame :=
  ⟨if c ∈ df.cols then df.cols else df.cols ++ [c],
   df.rows.map (fun r => rset r c (f r))⟩

/-- `df.drop(c, axis=1)` without the existence check. -/
def dropColF (df : DFrame) (c : String) : DFrame :=
  ⟨df.cols.filter (fun s => s ≠ c), df.rows.map (fun r => rowDrop r c)⟩

/-- `df.drop(c, axis=1)`: `KeyError` (`none`) when the column is absent. -/
def dropCol (df : DFrame) (c : String) : Option DFrame :=
  if c ∈ df.cols then some (dropColF df c) else none

/-- `df.rename(columns=tb)`: renames labels, ignores missing ones. -/
def renameCols (tb : List (String × String)) (df : DFrame) : DFrame :=
  ⟨df.cols.map (rnF tb), df.rows.map (renameKeys tb)⟩

/-- `df[cs]`: column selection/reordering; `KeyError` when a label is absent. -/
def selectCols (df : DFrame) (cs : List String) : Option DFrame :=
  if ∀ c ∈ cs, c ∈ df.cols then some ⟨cs, df.rows⟩ else none

/-- Merge-key comparison: NaN never matches (pandas join semantics). -/
def keyMatch (a b : Val) : Bool :=
  decide (a ≠ Val.null ∧ b ≠ Val.null ∧ a = b)

/-- The right-side rows whose key column matches a given left key value. -/
def matchRows (rrows : List Row) (rk : String) (v : Val) : List Row :=
  rrows.filter (fun rr => keyMatch v (rget rr rk))

/-- `pd.merge(l, r, left_on=lk, right_on=rk, how='left')`: every left row is
kept; unmatched rows get no right entries (their right cells read as NaN);
result columns are the left columns followed by the right columns.  `KeyError`
(`none`) when a join column is absent. -/
def mergeLeft (l r : DFrame) (lk rk : String) : Option DFrame :=
  if lk ∈ l.cols ∧ rk ∈ r.cols then
    some ⟨l.cols ++ r.cols,
      l.rows.flatMap (fun lr =>
        match matchRows r.rows rk (rget lr lk) with
        | [] => [lr]
        | ms => ms.map (fun rr => lr ++ rr))⟩
  else none

/-- `df.to_numpy()` row conversion: the tuple of cells in column order. -/
def rowTuple (cols : List String) (r : Row) : List Val :=
  cols.map (fun c => rget r c)

/-! ### etl_orders.py -/

/-- Column order of the extraction query in `extract_order_data`
(`SELECT OD.OrderID, OD.ProductID, O.OrderDate, O.RequiredDate,
O.ShippedDate, OD.Quantity, OD.Discount, OD.UnitPrice ...`). -/
def orderExtractCols : List String :=
  ["OrderID", "ProductID", "OrderDate", "RequiredDate", "ShippedDate",
   "Quantity", "Discount", "UnitPrice"]

/-- Column order of the dimension-map query in `transform_fact_data`
(`SELECT ProductKey, Source_ProductID FROM Dim_Product`). -/
def dimProductMapCols : List String :=
  ["ProductKey", "Source_ProductID"]

/-- The 9-column contract of `Fact_OrderMetrics` (`final_cols` in the source). -/
def finalCols : List String :=
  ["Source_OrderID", "Source_ProductID", "ProductKey",
   "OrderDate", "RequiredDate", "ShippedDate",
   "Quantity", "Discount", "ExtendedPrice"]

/-- The rename table of `transform_fact_data`
(`{'ProductID': 'Source_ProductID', 'OrderID': 'Source_OrderID'}`). -/
def factRenames : List (String × String) :=
  [("ProductID", "Source_ProductID"), ("OrderID", "Source_OrderID")]

/-- Numeric multiplication with NaN propagation. -/
def valMul : Val → Val → Val
  | Val.num a, Val.num b => Val.num (a * b)
  | _, _ => Val.null

/-- Numeric subtraction with NaN propagation. -/
def valSub : Val → Val → Val
  | Val.num a, Val.num b => Val.num (a - b)
  | _, _ => Val.null

/-- The per-row derived metric of step A of `transform_fact_data`:
`fact_df['Quantity'] * fact_df['UnitPrice'] * (1 - fact_df['Discount'])`. -/
def epVal (r : Row) : Val :=
  valMul (valMul (rget r "Quantity") (rget r "UnitPrice"))
    (valSub (Val.num 1) (rget r "Discount"))

/-- Which external database operation of a read call fails, if any. -/
inductive FetchMode where
  | ok : FetchMode
  | connectFail : FetchMode
  | queryFail : FetchMode
  deriving DecidableEq

/-- Connection bookkeeping of one call: how many connections it opened and
how many it closed before returning. -/
structure ConnTrace where
  opened : Nat
  closed : Nat
  deriving DecidableEq

/-- `extract_order_data`: on success, connect, read the joined order rows,
close, return the frame.  On `pyodbc.Error` (while connecting: nothing was
opened; while querying: the connection stays open because the `except` path
returns without `cnxn.close()`), the error is caught, logged and converted to
`pd.DataFrame()`.  `dbRows` is the external query result. -/
def extract_order_data (mode : FetchMode) (dbRows : List Row) :
    ConnTrace × DFrame :=
  match mode with
  | FetchMode.connectFail => (⟨0, 0⟩, emptyDF)
  | FetchMode.queryFail => (⟨1, 0⟩, emptyDF)
  | FetchMode.ok => (⟨1, 1⟩, ⟨orderExtractCols, dbRows⟩)

/-- `transform_fact_data`.  The first component of the result is the state of
the *caller's* frame object when the call returns (steps A and B mutate it in
place: the `ExtendedPrice` assignment and the `inplace=True` drop of
`UnitPrice`); the second is the returned value, where `Except.error c` stands
for an uncaught `KeyError` on column(s) `c`.  `mapLoad` is the outcome of the
dimension-map read (lines 46-53): `none` when it failed with `pyodbc.Error`,
in which case the function returns `pd.DataFrame()`. -/
def transform_fact_data (fact_df : DFrame) (mapLoad : Option DFrame) :
    DFrame × Except String DFrame :=
  if "Quantity" ∈ fact_df.cols then
    if "UnitPrice" ∈ fact_df.cols then
      if "Discount" ∈ fact_df.cols then
        let df1 := setColWith fact_df "ExtendedPrice" epVal
        let df2 := dropColF df1 "UnitPrice"
        match mapLoad with
        | none => (df2, Except.ok emptyDF)
        | some product_map_df =>
          match mergeLeft df2 product_map_df "ProductID" "Source_ProductID" with
          | none => (df2, Except.error "ProductID")
          | some merged =>
            match dropCol merged "Source_ProductID" with
            | none => (df2, Except.error "Source_ProductID")
            | some m2 =>
              match selectCols (renameCols factRenames m2) finalCols with
              | none => (df2, Except.error "final_cols")
              | some out => (df2, Except.ok out)
      else (fact_df, Except.error "Discount")
    else (fact_df, Except.error "UnitPrice")
  else (fact_df, Except.error "Quantity")

/-- Which external operation of a load call fails, if any. -/
inductive LoadMode where
  | ok : LoadMode
  | connectFail : LoadMode
  | clearFail : LoadMode
  | insertFail : LoadMode
  deriving DecidableEq

/-- SQL statements a load can issue against the reporting store. -/
inductive Stmt where
  | delete : Stmt
  | truncate : Stmt
  | insertBatch : Nat → Stmt
  | commit : Stmt
  | rollback : Stmt
  deriving DecidableEq

/-- How a load call terminates: a normal return, an uncaught `ValueError`
(the 9-column check), or the uncaught `UnboundLocalError` raised by
`cnxn.rollback()` in the handler when the connect itself failed. -/
inductive Outcome where
  | returned : Outcome
  | raisedValueError : Outcome
  | raisedUnbound : Outcome
  deriving DecidableEq

/-- Result of one load call: the *committed* contents of the target table
after the call, the trace of statements issued inside the transaction, and
how the call terminated.  Uncommitted work is discarded, so the committed
contents change only when `commit` is reached. -/
structure LoadOut where
  table : List (List Val)
  stmts : List Stmt
  outcome : Outcome
  deriving DecidableEq

/-- `load_fact_table` over pre-run committed table `pre`: skip when
`df.empty`; otherwise open a connection, `DELETE FROM Fact_OrderMetrics`,
convert the rows with `to_numpy`, raise `ValueError` when the first tuple's
width is not 9 (this check runs *after* the DELETE and is not caught by
`except pyodbc.Error`, so no rollback is called and nothing commits), then
`executemany` the batch and commit.  On `pyodbc.Error` the handler logs and
rolls back. -/
def load_fact_table (mode : LoadMode) (pre : List (List Val)) (df : DFrame) :
    LoadOut :=
  if df.isEmptyDF then ⟨pre, [], Outcome.returned⟩
  else
    match mode with
    | LoadMode.connectFail => ⟨pre, [], Outcome.raisedUnbound⟩
    | LoadMode.clearFail => ⟨pre, [Stmt.delete, Stmt.rollback], Outcome.returned⟩
    | LoadMode.insertFail =>
        if df.cols.length ≠ 9 then
          ⟨pre, [Stmt.delete], Outcome.raisedValueError⟩
        else
          ⟨pre, [Stmt.delete, Stmt.insertBatch df.rows.length, Stmt.rollback],
           Outcome.returned⟩
    | LoadMode.ok =>
        if df.cols.length ≠ 9 then
          ⟨pre, [Stmt.delete], Outcome.raisedValueError⟩
        else
          ⟨df.rows.map (rowTuple df.cols),
           [Stmt.delete, Stmt.insertBatch df.rows.length, Stmt.commit],
           Outcome.returned⟩

/-! ### etl_category.py -/

/-- The rename table of `etl_category.transform_data`. -/
def categoryRenames : List (String × String) :=
  [("CategoryID", "Source_CategoryID"), ("Description", "CategoryDescription")]

/-- The `Dim_Category` column contract. -/
def dimCategoryCols : List String :=
  ["Source_CategoryID", "CategoryName", "CategoryDescription"]

/-- `etl_category.transform_data`: rename in place (`inplace=True`, so the
first component, the caller's object, is the renamed frame), then select the
three dimension columns; the selection raises `KeyError` (`Except.error`)
when they are absent, e.g. on the empty frame a failed extraction returns. -/
def transform_data (df : DFrame) : DFrame × Except String DFrame :=
  let df1 := renameCols categoryRenames df
  match selectCols df1 dimCategoryCols with
  | none => (df1, Except.error "dim_category_cols")
  | some out => (df1, Except.ok out)

/-- `etl_category.load_dimension_table`: identical transactional structure to
`load_fact_table` but clears with `TRUNCATE TABLE Dim_Category` and has no
column-count check. -/
def load_dimension_table_category (mode : LoadMode) (pre : List (List Val))
    (df : DFrame) : LoadOut :=
  if df.isEmptyDF then ⟨pre, [], Outcome.returned⟩
  else
    match mode with
    | LoadMode.connectFail => ⟨pre, [], Outcome.raisedUnbound⟩
    | LoadMode.clearFail =>
        ⟨pre, [Stmt.truncate, Stmt.rollback], Outcome.returned⟩
    | LoadMode.insertFail =>
        ⟨pre, [Stmt.truncate, Stmt.insertBatch df.rows.length, Stmt.rollback],
         Outcome.returned⟩
    | LoadMode.ok =>
        ⟨df.rows.map (rowTuple df.cols),
         [Stmt.truncate, Stmt.insertBatch df.rows.length, Stmt.commit],
         Outcome.returned⟩

/-! ### etl_product.py -/

/-- `etl_product.load_dimension_table`: clears `Dim_Product` with
`DELETE FROM Dim_Product` ("DELETE bypasses the Foreign Key TRUNCATE
restriction"), otherwise like the category load. -/
def load_dimension_table_product (mode : LoadMode) (pre : List (List Val))
    (df : DFrame) : LoadOut :=
  if df.isEmptyDF then ⟨pre, [], Outcome.returned⟩
  else
    match mode with
    | LoadMode.connectFail => ⟨pre, [], Outcome.raisedUnbound⟩
    | LoadMode.clearFail =>
        ⟨pre, [Stmt.delete, Stmt.rollback], Outcome.returned⟩
    | LoadMode.insertFail =>
        ⟨pre, [Stmt.delete, Stmt.insertBatch df.rows.length, Stmt.rollback],
         Outcome.returned⟩
    | LoadMode.ok =>
        ⟨df.rows.map (rowTuple df.cols),
         [Stmt.delete, Stmt.insertBatch df.rows.length, Stmt.commit],
         Outcome.returned⟩

/-! ### Derived forms used to state the transform theorems -/

/-- The in-place effect of steps A and B of `transform_fact_data` on one row:
write `ExtendedPrice`, then drop `UnitPrice`. -/
def step12 (r : Row) : Row :=
  rowDrop (rset r "ExtendedPrice" (epVal r)) "UnitPrice"

/-- The row the left merge produces for one left row: itself when its key has
no match in the dimension map, itself extended with the (first) matching map
row otherwise. -/
def mergeRowR (rrows : List Row) (rk lk : String) (lr : Row) : Row :=
  match matchRows rrows rk (rget lr lk) with
  | [] => lr
  | m :: _ => lr ++ m

/-- What the whole fact transform makes of one extracted source row, given the
dimension-map rows: compute the metric and drop the raw unit price, attach the
matching map row (if any), drop the map's redundant natural-key column, rename
the source identifiers. -/
def resolveRow (pmrows : List Row) (r : Row) : Row :=
  renameKeys factRenames
    (rowDrop (mergeRowR pmrows "Source_ProductID" "ProductID" (step12 r))
      "Source_ProductID")

/-- The dimension key map as a lookup: the surrogate `ProductKey` of the
(first) map row whose `Source_ProductID` equals the given natural key. -/
def mapLookup (pmrows : List Row) (v : Val) : Option Val :=
  match matchRows pmrows "Source_ProductID" v with
  | [] => none
  | m :: _ => some (rget m "ProductKey")

/-! ### Concrete sample data for the witnesses and counterexamples -/

/-- A sample extracted fact row whose `ProductID` 1 is present in the map;
quantity 10, unit price 20, discount 1/10 (the spec's worked example). -/
def rowA : Row :=
  [("OrderID", Val.num 10248), ("ProductID", Val.num 1),
   ("OrderDate", Val.str "1996-07-04"), ("RequiredDate", Val.str "1996-08-01"),
   ("ShippedDate", Val.str "1996-07-16"), ("Quantity", Val.num 10),
   ("Discount", Val.num (1/10)), ("UnitPrice", Val.num 20)]

/-- A sample extracted fact row whose `ProductID` 99 is absent from the map. -/
def rowB : Row :=
  [("OrderID", Val.num 10249), ("ProductID", Val.num 99),
   ("OrderDate", Val.str "1996-07-05"), ("RequiredDate", Val.str "1996-08-16"),
   ("ShippedDate", Val.str "1996-07-10"), ("Quantity", Val.num 5),
   ("Discount", Val.num 0), ("UnitPrice", Val.num 4)]

/-- A sample extracted fact frame. -/
def dfC : DFrame := ⟨orderExtractCols, [rowA, rowB]⟩

/-- A sample product dimension key map with unique natural keys 1 and 2. -/
def pmC : DFrame :=
  ⟨dimProductMapCols,
   [[("ProductKey", Val.num 101), ("Source_ProductID", Val.num 1)],
    [("ProductKey", Val.num 102), ("Source_ProductID", Val.num 2)]]⟩

/-- The caller's view of `dfC` after `transform_fact_data` mutated it. -/
def st0 : DFrame := dropColF (setColWith dfC "ExtendedPrice" epVal) "UnitPrice"

/-- The transformed output frame for `dfC` and `pmC`. -/
def out0 : DFrame := ⟨finalCols, dfC.rows.map (resolveRow pmC.rows)⟩

/-- A frame violating the 9-column fact contract (2 columns, 1 row). -/
def badDF : DFrame :=
  ⟨["A", "B"], [[("A", Val.num 1), ("B", Val.num 2)]]⟩

/-- A sample nonempty pre-run committed state of the target table. -/
def pre1 : List (List Val) := [[Val.num 7]]

/-! ## Association-list (row) lemmas -/

theorem rowDrop_cons_eq (t : List (String × Val)) (c : String) (v : Val) :
    rowDrop ((c, v) :: t) c = rowDrop t c := by
  simp [rowDrop, List.filter_cons]

theorem rowDrop_cons_ne (t : List (String × Val)) (k c : String) (v : Val)
    (h : k ≠ c) : rowDrop ((k, v) :: t) c = (k, v) :: rowDrop t c := by
  simp [rowDrop, List.filter_cons, h]

theorem lookup_cons_ne {β : Type} (es : List (String × β)) (a k : String)
    (b : β) (h : a ≠ k) : ((k, b) :: es).lookup a = es.lookup a := by
  have hb : (a == k) = false := beq_eq_false_iff_ne.mpr h
  simp [List.lookup, hb]

theorem lookup_rowDrop (r : Row) (c d : String) (h : d ≠ c) :
    (rowDrop r c).lookup d = r.lookup d := by
  induction r with
  | nil => rfl
  | cons p t ih =>
    obtain ⟨k, v⟩ := p
    by_cases hk : k = c
    · subst hk
      rw [rowDrop_cons_eq, ih, lookup_cons_ne t d k v h]
    · rw [rowDrop_cons_ne t k c v hk]
      by_cases hdk : d = k
      · subst hdk
        rw [List.lookup_cons_self, List.lookup_cons_self]
      · rw [lookup_cons_ne _ d k v hdk, lookup_cons_ne t d k v hdk, ih]

theorem lookup_rset_self (r : Row) (c : String) (v : Val) :
    (rset r c v).lookup c = some v := by
  simp [rset, List.lookup]

theorem lookup_rset_ne (r : Row) (c d : String) (v : Val) (h : d ≠ c) :
    (rset r c v).lookup d = r.lookup d := by
  have hd : (d == c) = false := beq_eq_false_iff_ne.mpr h
  simp [rset, List.lookup, hd]
  exact lookup_rowDrop r c d h

theorem lookup_append_of_none (r1 r2 : Row) (c : String)
    (h : r1.lookup c = none) : (r1 ++ r2).lookup c = r2.lookup c := by
  induction r1 with
  | nil => rfl
  | cons p t ih =>
    obtain ⟨k, v⟩ := p
    simp only [List.lookup, List.cons_append] at h ⊢
    cases hck : c == k with
    | true => simp [hck] at h
    | false => simp only [hck] at h ⊢; exact ih h

theorem lookup_append_of_some (r1 r2 : Row) (c : String) (v : Val)
    (h : r1.lookup c = some v) : (r1 ++ r2).lookup c = some v := by
  induction r1 with
  | nil => simp [List.lookup] at h
  | cons p t ih =>
    obtain ⟨k, w⟩ := p
    simp only [List.lookup, List.cons_append] at h ⊢
    cases hck : c == k with
    | true => simpa [hck] using h
    | false => simp only [hck] at h ⊢; exact ih h

theorem lookup_renameKeys (tb : List (String × String)) (r : Row) (c : String)
    (h1 : ∀ k, rnF tb k = c → k = c) (h2 : rnF tb c = c) :
    (renameKeys tb r).lookup c = r.lookup c := by
  induction r with
  | nil => rfl
  | cons p t ih =>
    obtain ⟨k, v⟩ := p
    by_cases hk : k = c
    · subst hk
      simp [renameKeys, List.lookup, h2]
    · have hrn : rnF tb k ≠ c := fun hc => hk (h1 k hc)
      have hb1 : (c == rnF tb k) = false := beq_eq_false_iff_ne.mpr (Ne.symm hrn)
      have hb2 : (c == k) = false := beq_eq_false_iff_ne.mpr (Ne.symm hk)
      simp only [renameKeys, List.map_cons, List.lookup, hb1, hb2] at ih ⊢
      exact ih

theorem lookup_eq_none_of_keys (r : Row) (cols : List String) (c : String)
    (hr : ∀ p ∈ r, p.1 ∈ cols) (hc : c ∉ cols) : r.lookup c = none := by
  induction r with
  | nil => rfl
  | cons p t ih =>
    obtain ⟨k, v⟩ := p
    have hk : k ∈ cols := hr (k, v) (List.mem_cons_self _ _)
    have hck : (c == k) = false := by
      refine beq_eq_false_iff_ne.mpr (fun hckeq => ?_)
      exact hc (hckeq ▸ hk)
    simp only [List.lookup, hck]
    exact ih (fun q hq => hr q (List.mem_cons_of_mem _ hq))

/-! ## Merge lemmas -/

theorem keyMatch_eq (a b : Val) (h : keyMatch a b = true) : b = a := by
  have := of_decide_eq_true h
  exact this.2.2.symm

theorem matchRows_cons (t : List Row) (a : Row) (rk : String) (v : Val) :
    matchRows (a :: t) rk v =
      if keyMatch v (rget a rk) = true then a :: matchRows t rk v
      else matchRows t rk v := by
  simp [matchRows, List.filter_cons]

theorem matchRows_length_le_one (rrows : List Row) (rk : String) (v : Val)
    (hnd : (rrows.map (fun r => rget r rk)).Nodup) :
    (matchRows rrows rk v).length ≤ 1 := by
  induction rrows with
  | nil => simp [matchRows]
  | cons a t ih =>
    simp only [List.map_cons, List.nodup_cons] at hnd
    rw [matchRows_cons]
    by_cases h : keyMatch v (rget a rk) = true
    · rw [if_pos h]
      have ht : matchRows t rk v = [] := by
        refine List.filter_eq_nil_iff.mpr ?_
        intro b hb hpb
        have h1 : rget b rk = v := keyMatch_eq v (rget b rk) hpb
        have h2 : rget a rk = v := keyMatch_eq v (rget a rk) h
        have hmem : rget b rk ∈ List.map (fun r => rget r rk) t :=
          List.mem_map_of_mem (fun r => rget r rk) hb
        rw [h1, ← h2] at hmem
        exact hnd.1 hmem
      simp [ht]
    · rw [if_neg h]
      exact ih hnd.2

theorem flatMap_eq_map_of_singleton {α β : Type} (l : List α)
    (f : α → List β) (g : α → β) (h : ∀ a ∈ l, f a = [g a]) :
    l.flatMap f = l.map g := by
  induction l with
  | nil => rfl
  | cons a t ih =>
    simp only [List.flatMap_cons, List.map_cons,
      h a (List.mem_cons_self _ _)]
    simp only [List.singleton_append, List.cons.injEq, true_and]
    exact ih (fun b hb => h b (List.mem_cons_of_mem _ hb))

theorem mergefn_eq_single (pmrows : List Row) (rk lk : String) (lr : Row)
    (hnd : (pmrows.map (fun r => rget r rk)).Nodup) :
    (match matchRows pmrows rk (rget lr lk) with
     | [] => [lr]
     | ms => ms.map (fun rr => lr ++ rr)) = [mergeRowR pmrows rk lk lr] := by
  have hlen := matchRows_length_le_one pmrows rk (rget lr lk) hnd
  rcases hm : matchRows pmrows rk (rget lr lk) with _ | ⟨m, ms⟩
  · simp [mergeRowR, hm]
  · rw [hm] at hlen
    have : ms = [] := by
      cases ms with
      | nil => rfl
      | cons x xs => simp at hlen
    subst this
    simp [mergeRowR, hm]

/-! ## The fact transform on well-shaped input -/

theorem transform_fact_data_eq (rows pmrows : List Row)
    (hnd : (pmrows.map (fun r => rget r "Source_ProductID")).Nodup) :
    transform_fact_data ⟨orderExtractCols, rows⟩
        (some ⟨dimProductMapCols, pmrows⟩) =
      (⟨["OrderID", "ProductID", "OrderDate", "RequiredDate", "ShippedDate",
         "Quantity", "Discount", "ExtendedPrice"], rows.map step12⟩,
       Except.ok ⟨finalCols, rows.map (resolveRow pmrows)⟩) := by
  have hdf2 : dropColF
      (setColWith (⟨orderExtractCols, rows⟩ : DFrame) "ExtendedPrice" epVal)
      "UnitPrice" =
      ⟨["OrderID", "ProductID", "OrderDate", "RequiredDate", "ShippedDate",
        "Quantity", "Discount", "ExtendedPrice"], rows.map step12⟩ := by
    simp only [setColWith, dropColF, List.map_map]
    rfl
  have hm : mergeLeft
      (⟨["OrderID", "ProductID", "OrderDate", "RequiredDate", "ShippedDate",
         "Quantity", "Discount", "ExtendedPrice"], rows.map step12⟩ : DFrame)
      ⟨dimProductMapCols, pmrows⟩ "ProductID" "Source_ProductID" =
      some ⟨["OrderID", "ProductID", "OrderDate", "RequiredDate",
             "ShippedDate", "Quantity", "Discount", "ExtendedPrice"] ++
             dimProductMapCols,
        (rows.map step12).flatMap (fun lr =>
          match matchRows pmrows "Source_ProductID" (rget lr "ProductID") with
          | [] => [lr]
          | ms => ms.map (fun rr => lr ++ rr))⟩ := by
    unfold mergeLeft
    rw [if_pos (⟨(by decide : "ProductID" ∈
        ["OrderID", "ProductID", "OrderDate", "RequiredDate", "ShippedDate",
         "Quantity", "Discount", "ExtendedPrice"]),
      (by decide : "Source_ProductID" ∈ dimProductMapCols)⟩)]
  have hfm : (rows.map step12).flatMap (fun lr =>
        match matchRows pmrows "Source_ProductID" (rget lr "ProductID") with
        | [] => [lr]
        | ms => ms.map (fun rr => lr ++ rr)) =
      (rows.map step12).map
        (mergeRowR pmrows "Source_ProductID" "ProductID") := by
    refine flatMap_eq_map_of_singleton _ _ _ ?_
    intro lr _
    exact mergefn_eq_single pmrows "Source_ProductID" "ProductID" lr hnd
  unfold transform_fact_data
  rw [if_pos ((by decide : "Quantity" ∈ orderExtractCols) :
        "Quantity" ∈ (⟨orderExtractCols, rows⟩ : DFrame).cols)]
  rw [if_pos ((by decide : "UnitPrice" ∈ orderExtractCols) :
        "UnitPrice" ∈ (⟨orderExtractCols, rows⟩ : DFrame).cols)]
  rw [if_pos ((by decide : "Discount" ∈ orderExtractCols) :
        "Discount" ∈ (⟨orderExtractCols, rows⟩ : DFrame).cols)]
  dsimp only
  rw [hdf2, hm, hfm]
  dsimp only [dropCol, dropColF, renameCols, selectCols]
  rw [if_pos ((by decide : "Source_ProductID" ∈
      ["OrderID", "ProductID", "OrderDate", "RequiredDate", "ShippedDate",
       "Quantity", "Discount", "ExtendedPrice"] ++ dimProductMapCols) :
    "Source_ProductID" ∈
      (["OrderID", "ProductID", "OrderDate", "RequiredDate", "ShippedDate",
        "Quantity", "Discount", "ExtendedPrice"] ++ dimProductMapCols))]
  dsimp only
  rw [if_pos ((by decide : ∀ c ∈ finalCols, c ∈
      ((["OrderID", "ProductID", "OrderDate", "RequiredDate", "ShippedDate",
         "Quantity", "Discount", "ExtendedPrice"] ++
        dimProductMapCols).filter (fun s => s ≠ "Source_ProductID")).map
          (rnF factRenames)))]
  rw [List.map_map, List.map_map, List.map_map]
  rfl

/-! ## Per-row behaviour of the resolved fact rows -/

theorem rowDrop_append (a b : Row) (c : String) :
    rowDrop (a ++ b) c = rowDrop a c ++ rowDrop b c := by
  simp [rowDrop]

theorem lookup_step12_ne (r : Row) (c : String) (h1 : c ≠ "UnitPrice")
    (h2 : c ≠ "ExtendedPrice") : (step12 r).lookup c = r.lookup c := by
  unfold step12
  rw [lookup_rowDrop _ _ _ h1, lookup_rset_ne _ _ _ _ h2]

theorem lookup_step12_ep (r : Row) :
    (step12 r).lookup "ExtendedPrice" = some (epVal r) := by
  unfold step12
  rw [lookup_rowDrop _ _ _ (by decide), lookup_rset_self]

theorem rnF_factRenames_fix (c : String) (h1 : c ≠ "Source_ProductID")
    (h2 : c ≠ "Source_OrderID") (k : String) (h : rnF factRenames k = c) :
    k = c := by
  by_cases hk1 : k = "ProductID"
  · subst hk1
    have he : rnF factRenames "ProductID" = "Source_ProductID" := by decide
    rw [he] at h
    exact absurd h.symm h1
  · by_cases hk2 : k = "OrderID"
    · subst hk2
      have he : rnF factRenames "OrderID" = "Source_OrderID" := by decide
      rw [he] at h
      exact absurd h.symm h2
    · have he : rnF factRenames k = k := by
        unfold rnF factRenames
        rw [lookup_cons_ne _ _ _ _ hk1, lookup_cons_ne _ _ _ _ hk2]
        rfl
      rw [he] at h
      exact h

theorem resolveRow_productKey (pmrows : List Row) (r : Row)
    (hwf : r.lookup "ProductKey" = none) :
    rget (resolveRow pmrows r) "ProductKey" =
      match mapLookup pmrows (rget r "ProductID") with
      | some s => s
      | none => Val.null := by
  have hPID : rget (step12 r) "ProductID" = rget r "ProductID" := by
    unfold rget
    rw [lookup_step12_ne r _ (by decide) (by decide)]
  unfold resolveRow mergeRowR mapLookup
  rw [hPID]
  have hfix := rnF_factRenames_fix "ProductKey" (by decide) (by decide)
  have hstep : (step12 r).lookup "ProductKey" = none := by
    rw [lookup_step12_ne r _ (by decide) (by decide)]
    exact hwf
  rcases hm : matchRows pmrows "Source_ProductID" (rget r "ProductID")
    with _ | ⟨m, ms⟩
  · dsimp only
    unfold rget
    rw [lookup_renameKeys _ _ _ hfix (by decide),
        lookup_rowDrop _ _ _ (by decide), hstep]
  · dsimp only
    unfold rget
    rw [lookup_renameKeys _ _ _ hfix (by decide), rowDrop_append,
        lookup_append_of_none _ _ _ (by rw [lookup_rowDrop _ _ _ (by decide)]; exact hstep),
        lookup_rowDrop _ _ _ (by decide)]

theorem resolveRow_extendedPrice (pmrows : List Row) (r : Row) :
    rget (resolveRow pmrows r) "ExtendedPrice" = epVal r := by
  unfold resolveRow mergeRowR
  have hfix := rnF_factRenames_fix "ExtendedPrice" (by decide) (by decide)
  rcases hm : matchRows pmrows "Source_ProductID" (rget (step12 r) "ProductID")
    with _ | ⟨m, ms⟩
  · dsimp only
    unfold rget
    rw [lookup_renameKeys _ _ _ hfix (by decide),
        lookup_rowDrop _ _ _ (by decide), lookup_step12_ep]
  · dsimp only
    unfold rget
    rw [lookup_renameKeys _ _ _ hfix (by decide), rowDrop_append,
        lookup_append_of_some _ _ _ (epVal r)
          (by rw [lookup_rowDrop _ _ _ (by decide)]; exact lookup_step12_ep r)]

theorem selectCols_cols (d : DFrame) (cs : List String) (e : DFrame)
    (h : selectCols d cs = some e) : e.cols = cs := by
  unfold selectCols at h
  split at h
  · cases h
    rfl
  · exact Option.noConfusion h

/-! ## Claims -/

/-- Claim C2: for every input on which the fact transform runs to completion
(its dimension-map read having succeeded and no `KeyError` raised), the output
frame has exactly the 9 declared columns of `Fact_OrderMetrics`, in exactly
the declared order, regardless of the order of the input's columns. -/
theorem C2_nine_columns (fact_df pm st out : DFrame)
    (h : transform_fact_data fact_df (some pm) = (st, Except.ok out)) :
    out.cols = finalCols := by
  unfold transform_fact_data at h
  by_cases h1 : "Quantity" ∈ fact_df.cols
  · rw [if_pos h1] at h
    by_cases h2 : "UnitPrice" ∈ fact_df.cols
    · rw [if_pos h2] at h
      by_cases h3 : "Discount" ∈ fact_df.cols
      · rw [if_pos h3] at h
        dsimp only at h
        rcases hm : mergeLeft
            (dropColF (setColWith fact_df "ExtendedPrice" epVal) "UnitPrice")
            pm "ProductID" "Source_ProductID" with _ | merged
        · rw [hm] at h
          simp [Prod.ext_iff] at h
        · rw [hm] at h
          dsimp only at h
          rcases hd : dropCol merged "Source_ProductID" with _ | m2
          · rw [hd] at h
            simp [Prod.ext_iff] at h
          · rw [hd] at h
            dsimp only at h
            rcases hs : selectCols (renameCols factRenames m2) finalCols
              with _ | o
            · rw [hs] at h
              simp [Prod.ext_iff] at h
            · rw [hs] at h
              dsimp only at h
              have hout : o = out := by
                have := congrArg Prod.snd h
                simpa using this
              rw [← hout]
              exact selectCols_cols _ _ _ hs
      · rw [if_neg h3] at h
        simp [Prod.ext_iff] at h
    · rw [if_neg h2] at h
      simp [Prod.ext_iff] at h
  · rw [if_neg h1] at h
    simp [Prod.ext_iff] at h

/-- Witness for C2 at the sample input `dfC`/`pmC`. -/
theorem C2_witness : out0.cols = finalCols :=
  C2_nine_columns dfC pmC st0 out0 rfl

/-- Counterexample to claim C3 as stated: on a transformed row set with 2
columns instead of 9, `load_fact_table` does raise (`ValueError`) — but only
*after* the clear has been issued: the statement trace of the run is
`[DELETE]`, so a clear was issued against the target table before the
deviation was detected. -/
theorem C3_counterexample :
    (load_fact_table LoadMode.ok pre1 badDF).stmts = [Stmt.delete] ∧
    (load_fact_table LoadMode.ok pre1 badDF).outcome =
      Outcome.raisedValueError :=
  ⟨rfl, rfl⟩

/-- Claim C3 (amended): on a column-count deviation the fact build raises
`ValueError` before issuing any insert, and since the transaction is never
committed the committed table is unchanged; however the clear (DELETE) has
already been issued by the time the deviation is detected. -/
theorem C3_column_contract_violation (pre : List (List Val)) (df : DFrame)
    (h1 : df.rows ≠ []) (h2 : df.cols ≠ []) (h9 : df.cols.length ≠ 9) :
    load_fact_table LoadMode.ok pre df =
      ⟨pre, [Stmt.delete], Outcome.raisedValueError⟩ ∧
    load_fact_table LoadMode.insertFail pre df =
      ⟨pre, [Stmt.delete], Outcome.raisedValueError⟩ := by
  have hE : df.isEmptyDF = false := by
    simp [DFrame.isEmptyDF, List.isEmpty_iff, h1, h2]
  unfold load_fact_table
  simp [hE, h9]

/-- Witness for C3's amended claim at the 2-column frame `badDF`. -/
theorem C3_witness :
    load_fact_table LoadMode.ok pre1 badDF =
      ⟨pre1, [Stmt.delete], Outcome.raisedValueError⟩ :=
  (C3_column_contract_violation pre1 badDF (by decide) (by decide)
    (by decide)).1

/-- Counterexample to claim C4 as stated: the column-count `ValueError` is a
failure occurring after the clear and before the insert, yet the open
transaction is *not* rolled back (the exception is not a `pyodbc.Error`, so
the handler that calls `cnxn.rollback()` never runs). -/
theorem C4_counterexample :
    (load_fact_table LoadMode.ok pre1 badDF).outcome =
      Outcome.raisedValueError ∧
    Stmt.rollback ∉ (load_fact_table LoadMode.ok pre1 badDF).stmts :=
  ⟨rfl, by decide⟩

/-- Claim C4 (amended): for store (`pyodbc`) failures during the clear or
during the insert the handler rolls back and the committed table equals its
pre-run state; the column-count `ValueError` raised between clear and insert
propagates without an explicit rollback, but the transaction is never
committed either, so on every failure path the committed table equals its
pre-run state and is never half-loaded. -/
theorem C4_rollback_semantics (mode : LoadMode) (pre : List (List Val))
    (df : DFrame) :
    (mode ≠ LoadMode.ok → (load_fact_table mode pre df).table = pre) ∧
    ((load_fact_table mode pre df).outcome = Outcome.raisedValueError →
      (load_fact_table mode pre df).table = pre ∧
      Stmt.rollback ∉ (load_fact_table mode pre df).stmts ∧
      Stmt.commit ∉ (load_fact_table mode pre df).stmts) ∧
    ((mode = LoadMode.clearFail ∨ mode = LoadMode.insertFail) →
      df.isEmptyDF = false → df.cols.length = 9 →
      Stmt.rollback ∈ (load_fact_table mode pre df).stmts ∧
      (load_fact_table mode pre df).table = pre ∧
      (load_fact_table mode pre df).outcome = Outcome.returned) := by
  unfold load_fact_table
  cases hE : df.isEmptyDF <;> cases mode <;>
    by_cases h9 : df.cols.length = 9 <;> simp [h9, hE]

/-- Witness for C4's amended claim: a store failure during the clear of a
9-column nonempty load is rolled back and leaves the table unchanged. -/
theorem C4_witness :
    Stmt.rollback ∈ (load_fact_table LoadMode.clearFail pre1 out0).stmts ∧
    (load_fact_table LoadMode.clearFail pre1 out0).table = pre1 ∧
    (load_fact_table LoadMode.clearFail pre1 out0).outcome =
      Outcome.returned :=
  (C4_rollback_semantics LoadMode.clearFail pre1 out0).2.2 (Or.inl rfl)
    (by decide) (by decide)

/-- Claim C6: the category dimension load clears with the fast clear
(TRUNCATE) and never row-by-row delete, while the product dimension load and
the fact load clear with DELETE and never the fast clear. -/
theorem C6_clear_strategies (mode : LoadMode) (pre : List (List Val))
    (df : DFrame) :
    Stmt.truncate ∉ (load_dimension_table_product mode pre df).stmts ∧
    Stmt.truncate ∉ (load_fact_table mode pre df).stmts ∧
    Stmt.delete ∉ (load_dimension_table_category mode pre df).stmts ∧
    (df.isEmptyDF = false → mode ≠ LoadMode.connectFail →
      (load_dimension_table_category mode pre df).stmts.head? =
        some Stmt.truncate ∧
      (load_dimension_table_product mode pre df).stmts.head? =
        some Stmt.delete ∧
      (load_fact_table mode pre df).stmts.head? = some Stmt.delete) := by
  unfold load_fact_table load_dimension_table_product
    load_dimension_table_category
  cases hE : df.isEmptyDF <;> cases mode <;>
    by_cases h9 : df.cols.length = 9 <;> simp [h9, hE]

/-- Witness for C6 at a nonempty frame: each load's first issued statement is
its mandated clear. -/
theorem C6_witness :
    (load_dimension_table_category LoadMode.ok pre1 badDF).stmts.head? =
      some Stmt.truncate ∧
    (load_dimension_table_product LoadMode.ok pre1 badDF).stmts.head? =
      some Stmt.delete ∧
    (load_fact_table LoadMode.ok pre1 badDF).stmts.head? =
      some Stmt.delete :=
  (C6_clear_strategies LoadMode.ok pre1 badDF).2.2.2 (by decide) (by decide)

/-- Claim C7, evaluated on the code: when extraction fails (connect or query
error) it returns the empty frame, but the callers do *not* treat this as a
no-op — `transform_fact_data` raises `KeyError('Quantity')` on it and
`etl_category`'s `transform_data` raises `KeyError` on its column selection,
so the build aborts with an unhandled exception instead of completing. -/
theorem C7_failed_extraction_crashes (db : List Row) (m : Option DFrame) :
    (transform_fact_data (extract_order_data FetchMode.connectFail db).2 m).2 =
      Except.error "Quantity" ∧
    (transform_fact_data (extract_order_data FetchMode.queryFail db).2 m).2 =
      Except.error "Quantity" ∧
    (transform_data emptyDF).2 = Except.error "dim_category_cols" :=
  ⟨rfl, rfl, rfl⟩

/-- Counterexample to claim C8 as stated: a call of the Source Reader whose
query fails after a successful connect returns with one opened and zero
closed connections — the error path leaves the connection open. -/
theorem C8_counterexample :
    (extract_order_data FetchMode.queryFail []).1.opened = 1 ∧
    (extract_order_data FetchMode.queryFail []).1.closed = 0 :=
  ⟨rfl, rfl⟩

/-- Claim C8 (amended): every Source Reader call opens at most one
connection; on success (and on a connect failure, where nothing was opened)
it closes exactly what it opened before returning; but on a query failure
after a successful connect the `except` path returns without closing,
leaving the connection open. -/
theorem C8_connection_lifecycle (mode : FetchMode) (db : List Row) :
    (extract_order_data mode db).1.opened ≤ 1 ∧
    (mode ≠ FetchMode.queryFail →
      (extract_order_data mode db).1.closed =
        (extract_order_data mode db).1.opened) ∧
    (mode = FetchMode.queryFail →
      (extract_order_data mode db).1.opened = 1 ∧
      (extract_order_data mode db).1.closed = 0) := by
  cases mode <;> simp [extract_order_data]

/-- Witness for C8's amended claim on the successful path. -/
theorem C8_witness :
    (extract_order_data FetchMode.ok []).1.closed =
      (extract_order_data FetchMode.ok []).1.opened :=
  (C8_connection_lifecycle FetchMode.ok []).2.1 (by decide)

/-- Counterexample to claim C9 as stated: after `transform_fact_data`
returns, the caller's input frame no longer has its `UnitPrice` column — the
transform mutated its input in place. -/
theorem C9_counterexample :
    "UnitPrice" ∈ dfC.cols ∧
    "UnitPrice" ∉ ((transform_fact_data dfC (some pmC)).1).cols := by
  constructor
  · decide
  · decide

/-- Claim C9 (amended): `transform_fact_data` mutates the extracted input in
place — after it returns the caller's frame has `ExtendedPrice` added and
`UnitPrice` removed — while every other column keeps its values; the
merged/renamed/selected result is a separate frame.  Likewise `etl_category`'s
`transform_data` renames its input's columns in place. -/
theorem C9_transform_mutates_input (df : DFrame) (m : Option DFrame)
    (h1 : "Quantity" ∈ df.cols) (h2 : "UnitPrice" ∈ df.cols)
    (h3 : "Discount" ∈ df.cols) :
    (transform_fact_data df m).1 =
      dropColF (setColWith df "ExtendedPrice" epVal) "UnitPrice" ∧
    "UnitPrice" ∉ (transform_fact_data df m).1.cols ∧
    (∀ c, c ≠ "UnitPrice" → c ≠ "ExtendedPrice" →
      getCol (transform_fact_data df m).1 c = getCol df c) ∧
    (∀ cdf : DFrame, (transform_data cdf).1 = renameCols categoryRenames cdf)
    := by
  have hfst : (transform_fact_data df m).1 =
      dropColF (setColWith df "ExtendedPrice" epVal) "UnitPrice" := by
    unfold transform_fact_data
    rw [if_pos h1, if_pos h2, if_pos h3]
    cases m with
    | none => rfl
    | some pm =>
      dsimp only
      cases hm : mergeLeft
          (dropColF (setColWith df "ExtendedPrice" epVal) "UnitPrice") pm
          "ProductID" "Source_ProductID" with
      | none => rfl
      | some merged =>
        dsimp only
        cases hd : dropCol merged "Source_ProductID" with
        | none => rfl
        | some m2 =>
          dsimp only
          cases hs : selectCols (renameCols factRenames m2) finalCols with
          | none => rfl
          | some o => rfl
  have hup : "UnitPrice" ∉
      (dropColF (setColWith df "ExtendedPrice" epVal) "UnitPrice").cols := by
    simp [dropColF, List.mem_filter]
  have hcols : ∀ c, c ≠ "UnitPrice" → c ≠ "ExtendedPrice" →
      getCol (dropColF (setColWith df "ExtendedPrice" epVal) "UnitPrice") c =
        getCol df c := by
    intro c hcu hce
    unfold getCol dropColF setColWith
    dsimp only
    have hmem : (c ∈ ((if "ExtendedPrice" ∈ df.cols then df.cols
        else df.cols ++ ["ExtendedPrice"]).filter (fun s => s ≠ "UnitPrice")))
        ↔ c ∈ df.cols := by
      by_cases he : "ExtendedPrice" ∈ df.cols <;>
        simp [he, List.mem_filter, List.mem_append, hcu, hce]
    by_cases hc : c ∈ df.cols
    · rw [if_pos (hmem.mpr hc), if_pos hc]
      rw [List.map_map, List.map_map]
      refine congrArg some ?_
      refine List.map_congr_left ?_
      intro r _
      show rget (rowDrop (rset r "ExtendedPrice" (epVal r)) "UnitPrice") c =
        rget r c
      unfold rget
      rw [lookup_rowDrop _ _ _ hcu, lookup_rset_ne _ _ _ _ hce]
    · rw [if_neg (fun hin => hc (hmem.mp hin)), if_neg hc]
  refine ⟨hfst, ?_, ?_, ?_⟩
  · rw [hfst]
    exact hup
  · intro c hcu hce
    rw [hfst]
    exact hcols c hcu hce
  · intro cdf
    unfold transform_data
    dsimp only
    cases hs : selectCols (renameCols categoryRenames cdf) dimCategoryCols
      with
    | none => rfl
    | some o => rfl

/-- Witness for C9's amended claim at the sample input. -/
theorem C9_witness :
    (transform_fact_data dfC (some pmC)).1 =
      dropColF (setColWith dfC "ExtendedPrice" epVal) "UnitPrice" ∧
    "UnitPrice" ∉ (transform_fact_data dfC (some pmC)).1.cols := by
  have h := C9_transform_mutates_input dfC (some pmC) (by decide) (by decide)
    (by decide)
  exact ⟨h.1, h.2.1⟩

/-- Claim C10: for every extracted fact input and every product key map whose
`Source_ProductID` values are pairwise distinct, the fact transform returns
exactly one output row per input row, in the same order: the i-th row handed
to the batched insert is `resolveRow` of the i-th extracted source row. -/
theorem C10_order_preservation (fact_df pm st out : DFrame)
    (hcols : fact_df.cols = orderExtractCols)
    (hpcols : pm.cols = dimProductMapCols)
    (hnd : (pm.rows.map (fun r => rget r "Source_ProductID")).Nodup)
    (h : transform_fact_data fact_df (some pm) = (st, Except.ok out)) :
    out.rows = fact_df.rows.map (resolveRow pm.rows) ∧
    out.rows.length = fact_df.rows.length := by
  obtain ⟨cols, rows⟩ := fact_df
  obtain ⟨pcols, prows⟩ := pm
  dsimp only at hcols hpcols hnd h ⊢
  subst hcols
  subst hpcols
  rw [transform_fact_data_eq rows prows hnd] at h
  have h2 := congrArg Prod.snd h
  simp only [Except.ok.injEq] at h2
  rw [← h2]
  exact ⟨rfl, by simp⟩

/-- Witness for C10 at the sample input. -/
theorem C10_witness :
    out0.rows = dfC.rows.map (resolveRow pmC.rows) ∧
    out0.rows.length = dfC.rows.length :=
  C10_order_preservation dfC pmC st0 out0 rfl rfl (by decide) rfl

/-- Claim C1: for every fact row and every product dimension key map with
unique natural keys, when the row's `ProductID` is present in the map the
transformed row's `ProductKey` equals the map's surrogate key for it, and
when it is absent the transformed row's `ProductKey` is null — and in both
cases the row is still present in the output (one output row per input row,
same position). -/
theorem C1_key_resolution (fact_df pm st out : DFrame)
    (hcols : fact_df.cols = orderExtractCols)
    (hwf : fact_df.WF)
    (hpcols : pm.cols = dimProductMapCols)
    (hnd : (pm.rows.map (fun r => rget r "Source_ProductID")).Nodup)
    (h : transform_fact_data fact_df (some pm) = (st, Except.ok out)) :
    out.rows.length = fact_df.rows.length ∧
    ∀ i (hi : i < fact_df.rows.length) (hi' : i < out.rows.length),
      (∀ s, mapLookup pm.rows
            (rget (fact_df.rows.get ⟨i, hi⟩) "ProductID") = some s →
          rget (out.rows.get ⟨i, hi'⟩) "ProductKey" = s) ∧
      (mapLookup pm.rows
            (rget (fact_df.rows.get ⟨i, hi⟩) "ProductID") = none →
          rget (out.rows.get ⟨i, hi'⟩) "ProductKey" = Val.null) := by
  obtain ⟨cols, rows⟩ := fact_df
  obtain ⟨pcols, prows⟩ := pm
  dsimp only at hcols hpcols hnd hwf h ⊢
  subst hcols
  subst hpcols
  rw [transform_fact_data_eq rows prows hnd] at h
  have h2 := congrArg Prod.snd h
  simp only [Except.ok.injEq] at h2
  rw [← h2]
  dsimp only
  refine ⟨by simp, ?_⟩
  intro i hi hi'
  have hget : (List.map (resolveRow prows) rows).get ⟨i, hi'⟩ =
      resolveRow prows (rows.get ⟨i, hi⟩) := by
    simp [List.get_eq_getElem, List.getElem_map]
  rw [hget]
  have hwfr : (rows.get ⟨i, hi⟩).lookup "ProductKey" = none := by
    refine lookup_eq_none_of_keys _ orderExtractCols _ ?_ (by decide)
    intro p hp
    exact hwf (rows.get ⟨i, hi⟩) (List.get_mem rows i hi) p hp
  have hres := resolveRow_productKey prows (rows.get ⟨i, hi⟩) hwfr
  constructor
  · intro s hsome
    rw [hres, hsome]
  · intro hnone
    rw [hres, hnone]

/-- Witness for C1: in the sample run, the row with `ProductID` 1 (present in
the map) resolves to surrogate key 101, and the row with `ProductID` 99
(absent) gets a null `ProductKey` while remaining in the output. -/
theorem C1_witness :
    rget (out0.rows.get ⟨0, by decide⟩) "ProductKey" = Val.num 101 ∧
    rget (out0.rows.get ⟨1, by decide⟩) "ProductKey" = Val.null := by
  have h := C1_key_resolution dfC pmC st0 out0 rfl (by decide) rfl (by decide)
    rfl
  refine ⟨?_, ?_⟩
  · exact (h.2 0 (by decide) (by decide)).1 (Val.num 101) (by decide)
  · exact (h.2 1 (by decide) (by decide)).2 (by decide)

/-- Claim C5: for every fact row of a completed transform, the derived
`ExtendedPrice` equals `quantity * unitPrice * (1 - discount)`, computed at
transform time. -/
theorem C5_extended_price (fact_df pm st out : DFrame)
    (hcols : fact_df.cols = orderExtractCols)
    (hpcols : pm.cols = dimProductMapCols)
    (hnd : (pm.rows.map (fun r => rget r "Source_ProductID")).Nodup)
    (h : transform_fact_data fact_df (some pm) = (st, Except.ok out)) :
    ∀ i (hi : i < fact_df.rows.length) (hi' : i < out.rows.length)
      (q p d : ℚ),
      rget (fact_df.rows.get ⟨i, hi⟩) "Quantity" = Val.num q →
      rget (fact_df.rows.get ⟨i, hi⟩) "UnitPrice" = Val.num p →
      rget (fact_df.rows.get ⟨i, hi⟩) "Discount" = Val.num d →
      rget (out.rows.get ⟨i, hi'⟩) "ExtendedPrice" =
        Val.num (q * p * (1 - d)) := by
  obtain ⟨cols, rows⟩ := fact_df
  obtain ⟨pcols, prows⟩ := pm
  dsimp only at hcols hpcols hnd h ⊢
  subst hcols
  subst hpcols
  rw [transform_fact_data_eq rows prows hnd] at h
  have h2 := congrArg Prod.snd h
  simp only [Except.ok.injEq] at h2
  rw [← h2]
  dsimp only
  intro i hi hi' q p d hq hp hd
  have hget : (List.map (resolveRow prows) rows).get ⟨i, hi'⟩ =
      resolveRow prows (rows.get ⟨i, hi⟩) := by
    simp [List.get_eq_getElem, List.getElem_map]
  rw [hget, resolveRow_extendedPrice]
  unfold epVal
  rw [hq, hp, hd]
  rfl

/-- Witness for C5: the spec's worked example — quantity 10, unit price 20,
discount 1/10 yields ExtendedPrice 180 in the transformed output. -/
theorem C5_witness :
    rget (out0.rows.get ⟨0, by decide⟩) "ExtendedPrice" = Val.num 180 := by
  have h := C5_extended_price dfC pmC st0 out0 rfl rfl (by decide) rfl
  have h0 := h 0 (by decide) (by decide) 10 20 (1/10) rfl rfl rfl
  rw [h0]
  simp only [Val.num.injEq]
  norm_num

end NW
